import Mathlib

/-!
Verification development for the lost-valley-image-manager repository.

Shallow embedding of the parts of the code base needed to settle the frozen
claims: the Python value universe handled by the vision clients, the
metadata normalizer of the hosted two-pass client
(src/image_processor/vision/claude_client.py), the retry loops of the two
vision clients, the schema creation and migration logic
(src/image_processor/database/schema.py and connection.py), the repository
layer (src/image_processor/database/repositories.py), the orchestration
service (src/image_processor/vision/service.py), the data-model records
(src/image_processor/core/models.py) and configuration validation
(src/image_processor/core/config.py, src/image_processor/cli/main.py).

Machine integers do not occur (Python ints are unbounded); numbers are
modelled as Int and Nat, model-reported fractional scores as Rat.
Fallible code returns Except.
-/

/-! ## Python value universe

Values the vision clients see after JSON parsing: None, bools, ints,
strings, and flat lists of such scalars (the shape activity-tag lists take).
-/

inductive PyScalar where
  | snone
  | sbool (b : Bool)
  | sint (n : Int)
  | sstr (s : String)
deriving DecidableEq

inductive PyVal where
  | scalar (v : PyScalar)
  | pylist (xs : List PyScalar)
deriving DecidableEq

def pvStr (s : String) : PyVal := .scalar (.sstr s)

def pvInt (n : Int) : PyVal := .scalar (.sint n)

def pvBool (b : Bool) : PyVal := .scalar (.sbool b)

def pvNone : PyVal := .scalar .snone

/-! ## Python string primitives used by the normalizer -/

/-- Lower-casing as Python str.lower performs it on the ASCII range (the
inputs of interest are ASCII plus en/em dashes, which lower leaves alone). -/
def asciiLowerChar (c : Char) : Char :=
  if 'A' ≤ c ∧ c ≤ 'Z' then Char.ofNat (c.toNat + 32) else c

def asciiLower (s : String) : String := ⟨s.data.map asciiLowerChar⟩

/-- Whitespace stripped by Python str.strip. -/
def isPySpace (c : Char) : Bool :=
  c == ' ' || c == '\t' || c == '\n' || c == '\r' || c == Char.ofNat 11 || c == Char.ofNat 12

def pyStripChars (l : List Char) : List Char :=
  ((l.dropWhile isPySpace).reverse.dropWhile isPySpace).reverse

def pyStrip (s : String) : String := ⟨pyStripChars s.data⟩

/-- Python str.replace: replace all non-overlapping occurrences left to
right. The fuel argument (instantiated with the string length) only serves
termination; it is never exhausted because each step consumes at least one
character. -/
def pyReplaceAux (old new : List Char) : Nat → List Char → List Char
  | _, [] => []
  | 0, l => l
  | fuel + 1, c :: rest =>
      if old ≠ [] ∧ old = (c :: rest).take old.length then
        new ++ pyReplaceAux old new fuel ((c :: rest).drop old.length)
      else
        c :: pyReplaceAux old new fuel rest

def pyReplace (s old new : String) : String :=
  ⟨pyReplaceAux old.data new.data s.data.length s.data⟩

/-- Python str.split on a comma: empty segments are kept, as in Python. -/
def splitOnComma : List Char → List (List Char)
  | [] => [[]]
  | c :: rest =>
      let r := splitOnComma rest
      if c = ',' then [] :: r
      else
        match r with
        | [] => [[c]]
        | h :: t => (c :: h) :: t

/-- Python single-quote character, written by code point to keep literals plain. -/
def pySq : String := ⟨[Char.ofNat 39]⟩

/-- Python str() of a scalar. -/
def pyStrScalar : PyScalar → String
  | .snone => "None"
  | .sbool true => "True"
  | .sbool false => "False"
  | .sint n => toString n
  | .sstr s => s

/-- Python repr() of a scalar, as it appears inside str() of a list
(string escapes inside reprs are not modelled; the strings reaching this
point contain no quotes). -/
def pyReprScalar : PyScalar → String
  | .sstr s => pySq ++ s ++ pySq
  | v => pyStrScalar v

/-- Python str() of a value. -/
def pyStr : PyVal → String
  | .scalar v => pyStrScalar v
  | .pylist xs => "[" ++ String.intercalate ", " (xs.map pyReprScalar) ++ "]"

def digitVal (c : Char) : Option Nat :=
  if '0' ≤ c ∧ c ≤ '9' then some (c.toNat - 48) else none

def parseDigitsAux : Nat → List Char → Option Nat
  | acc, [] => some acc
  | acc, c :: rest =>
      match digitVal c with
      | some d => parseDigitsAux (acc * 10 + d) rest
      | none => none

def parseDigits (l : List Char) : Option Nat :=
  match l with
  | [] => none
  | l => parseDigitsAux 0 l

/-- Python int() on an already space-free string: optional sign and digits
(exotic accepted forms such as underscores are outside the modelled inputs). -/
def pyParseInt (s : String) : Option Int :=
  match s.data with
  | '-' :: rest => (parseDigits rest).map (fun n => -(n : Int))
  | '+' :: rest => (parseDigits rest).map (fun n => (n : Int))
  | l => (parseDigits l).map (fun n => (n : Int))

def allDigits (l : List Char) : Bool := l.all (fun c => (digitVal c).isSome)

/-- A decimal number num / 10 ^ exp: the exact value of the decimal literals
Python float() receives here (their float images round-trip for the short
literals under study). -/
structure DecNum where
  num : Int
  exp : Nat
deriving DecidableEq

def pyParseFloatCore (l : List Char) : Option DecNum :=
  let ip := l.takeWhile (fun c => (digitVal c).isSome)
  let rest := l.dropWhile (fun c => (digitVal c).isSome)
  match rest with
  | [] => if ip = [] then none else (parseDigitsAux 0 ip).map (fun n => ⟨(n : Int), 0⟩)
  | '.' :: fp =>
      if allDigits fp ∧ (ip ≠ [] ∨ fp ≠ []) then
        match parseDigitsAux 0 ip, parseDigitsAux 0 fp with
        | some a, some b => some ⟨(a : Int) * (10 : Int) ^ fp.length + (b : Int), fp.length⟩
        | _, _ => none
      else none
  | _ => none

/-- Python float() on decimal literals (sign, digits, optional fractional
part); forms outside this grammar are treated as parse failures, matching
the except-clause of the caller for the inputs under study. -/
def pyParseFloat (s : String) : Option DecNum :=
  match s.data with
  | '-' :: rest => (pyParseFloatCore rest).map (fun q => ⟨-q.num, q.exp⟩)
  | '+' :: rest => pyParseFloatCore rest
  | l => pyParseFloatCore l

/-- Python round() of num / 10 ^ exp to an integer: banker rounding, ties
to even, computed on scaled integers. -/
def pyRound (q : DecNum) : Int :=
  let d : Int := (10 : Int) ^ q.exp
  let f : Int := Int.fdiv q.num d
  let r : Int := q.num - f * d
  if 2 * r < d then f
  else if 2 * r > d then f + 1
  else if f % 2 = 0 then f else f + 1

/-- Python min on two ints. -/
def pymin (a b : Int) : Int := if a ≤ b then a else b

/-- Python max on two ints. -/
def pymax (a b : Int) : Int := if b ≤ a then a else b

/-! ## claude_client.py: _normalize_metadata -/

/-- The to_bool helper inside ClaudeVisionClient._normalize_metadata. -/
def to_bool : PyVal → Bool
  | .scalar (.sbool b) => b
  | .scalar (.sint n) => n ≠ 0
  | .scalar (.sstr s) =>
      let t := asciiLower (pyStrip s)
      if t = "true" ∨ t = "yes" ∨ t = "y" ∨ t = "1" then true
      else if t = "false" ∨ t = "no" ∨ t = "n" ∨ t = "0" then false
      else false
  | _ => false

/-- The to_int_1_5 helper inside ClaudeVisionClient._normalize_metadata:
coerce to int (rounding strings that contain a dot), clamp into [1,5];
None on coercion failure. Python bool counts as an int (int(True) = 1). -/
def to_int_1_5 : PyVal → Option Int
  | .scalar (.sstr s) =>
      let t := pyReplace s " " ""
      if t.data.contains '.' then
        (pyParseFloat t).map (fun q => pymax 1 (pymin 5 (pyRound q)))
      else
        (pyParseInt t).map (fun n => pymax 1 (pymin 5 n))
  | .scalar (.sint n) => some (pymax 1 (pymin 5 n))
  | .scalar (.sbool b) => some (pymax 1 (pymin 5 (if b then (1 : Int) else 0)))
  | _ => none

def PEOPLE_COUNT_OPTIONS : List String := ["none", "1-2", "3-5", "6-10", "10+"]

/-- The cleaned-up key the people-count mapping is probed with:
str(value).strip().lower() followed by the replace chain of the source. -/
def peopleCountKey (v : PyVal) : String :=
  let raw := asciiLower (pyStrip (pyStr v))
  pyReplace (pyReplace (pyReplace (pyReplace (pyReplace (pyReplace
    (pyReplace raw "–" "-") "—" "-") "to" "-") "people" "") "person" "") "persons" "") " " ""

/-- The people-count mapping dict from the source, with the dict-get default
of "10+". -/
def peopleCountLookup (s : String) : String :=
  if s = "0" ∨ s = "zero" ∨ s = "none" ∨ s = "noone" ∨ s = "n/a" ∨ s = "na" then "none"
  else if s = "1" ∨ s = "2" ∨ s = "1-2" ∨ s = "1or2" ∨ s = "oneortwo" then "1-2"
  else if s = "3" ∨ s = "4" ∨ s = "5" ∨ s = "3-5" ∨ s = "3or5" then "3-5"
  else if s = "6" ∨ s = "7" ∨ s = "8" ∨ s = "9" ∨ s = "10" ∨ s = "6-10" then "6-10"
  else "10+"

def normPeopleCount (v : PyVal) : PyVal := pvStr (peopleCountLookup (peopleCountKey v))

def ACTIVITY_TAGS : List String :=
  ["gardening", "harvesting", "education", "construction", "maintenance", "cooking",
   "celebration", "children", "animals", "landscape", "tools", "produce"]

/-- Python sorted(set(l)): deduplicate, then sort ascending. -/
def sortedTagSet (l : List String) : List String :=
  List.insertionSort (· ≤ ·) l.dedup

/-- The list branch of the activity-tag normalization:
sorted set of str(x).lower() entries restricted to the valid vocabulary. -/
def tagListOfList (xs : List PyScalar) : List String :=
  sortedTagSet ((xs.map (fun x => asciiLower (pyStrScalar x))).filter
    (fun t => ACTIVITY_TAGS.contains t))

/-- The string branch: split on commas, strip entries, drop empties, lower. -/
def splitTagString (s : String) : List PyScalar :=
  ((splitOnComma s.data).map pyStripChars).filterMap
    (fun t => if t = [] then none else some (.sstr (asciiLower ⟨t⟩)))

def normActivityTags (v : PyVal) : PyVal :=
  match v with
  | .scalar (.sstr s) => .pylist ((tagListOfList (splitTagString s)).map .sstr)
  | .pylist xs => .pylist ((tagListOfList xs).map .sstr)
  | _ => v

def seasonLookup (s : String) : String :=
  if s = "spring" then "spring"
  else if s = "summer" then "summer"
  else if s = "fall" ∨ s = "autumn" then "fall"
  else if s = "winter" then "winter"
  else if s = "unclear" ∨ s = "unknown" then "unclear"
  else "unclear"

def normSeason (v : PyVal) : PyVal :=
  match v with
  | .scalar (.sstr s) => pvStr (seasonLookup (asciiLower (pyStrip s)))
  | _ => v

def timeOfDayLookup (s : String) : String :=
  if s = "morning" ∨ s = "sunrise" ∨ s = "dawn" then "morning"
  else if s = "midday" ∨ s = "noon" ∨ s = "afternoon" then "midday"
  else if s = "evening" ∨ s = "sunset" ∨ s = "dusk" ∨ s = "twilight" then "evening"
  else if s = "unclear" ∨ s = "unknown" then "unclear"
  else "unclear"

def normTimeOfDay (v : PyVal) : PyVal :=
  match v with
  | .scalar (.sstr s) => pvStr (timeOfDayLookup (asciiLower (pyStrip s)))
  | _ => v

def normScore (v : PyVal) : PyVal :=
  match to_int_1_5 v with
  | some n => pvInt n
  | none => v

/-- The metadata dict restricted to the keys _normalize_metadata reads or
writes; a key held with value None is a present pynone entry, an absent key
is Option.none. primary_subject stands for the keys the function never
touches. -/
structure MetaDict where
  primary_subject : Option PyVal
  has_people : Option PyVal
  is_indoor : Option PyVal
  visual_quality : Option PyVal
  social_media_score : Option PyVal
  marketing_score : Option PyVal
  people_count : Option PyVal
  activity_tags : Option PyVal
  season : Option PyVal
  time_of_day : Option PyVal
  notes : Option PyVal
  file_path_notes : Option PyVal
deriving DecidableEq

namespace ClaudeVisionClient

/-- ClaudeVisionClient._normalize_metadata: each step of the source guards
on key presence and rewrites that key only; the legacy notes key is copied
into file_path_notes when the latter is absent. -/
def normalize_metadata (m : MetaDict) : MetaDict :=
  { m with
    has_people := m.has_people.map (fun v => pvBool (to_bool v)),
    is_indoor := m.is_indoor.map (fun v => pvBool (to_bool v)),
    visual_quality := m.visual_quality.map normScore,
    social_media_score := m.social_media_score.map normScore,
    marketing_score := m.marketing_score.map normScore,
    people_count := m.people_count.map normPeopleCount,
    activity_tags := m.activity_tags.map normActivityTags,
    season := m.season.map normSeason,
    time_of_day := m.time_of_day.map normTimeOfDay,
    file_path_notes :=
      if m.file_path_notes = none ∧ m.notes.isSome then m.notes
      else m.file_path_notes }

end ClaudeVisionClient

def emptyMeta : MetaDict :=
  ⟨none, none, none, none, none, none, none, none, none, none, none, none⟩

/-! ## Properties of the normalizer -/

/-! ## client.py and claude_client.py: _make_request retry loops

Both clients run the same loop: for attempt in range(max_retries), a
failing attempt stores the exception and sleeps 2 ^ attempt seconds when
attempt < max_retries - 1; a successful attempt returns immediately; after
the loop a Vision-Model error naming the last underlying error is raised.
Sleeps are recorded in the trace instead of being performed, and the
network is an oracle from attempt index to outcome.
-/

structure RetryTrace (α : Type) where
  result : Except String α
  sleeps : List Nat
  attemptsMade : Nat

/-- One loop body iteration chain; fuel counts the remaining iterations of
range(max_retries) and attempt is the current index. last_exception starts
as Python None, formatted "None" if max_retries is 0. -/
def retryLoopGo {α : Type} (att : Nat → Except String α) (n : Nat) :
    Nat → Nat → String → RetryTrace α
  | _, 0, lastErr =>
      ⟨.error ("All " ++ toString n ++ " API requests failed. Last error: " ++ lastErr),
        [], 0⟩
  | attempt, fuel + 1, _ =>
      match att attempt with
      | .ok r => ⟨.ok r, [], 1⟩
      | .error e =>
          let rest := retryLoopGo att n (attempt + 1) fuel e
          ⟨rest.result, (if attempt + 1 < n then [2 ^ attempt] else []) ++ rest.sleeps,
            rest.attemptsMade + 1⟩

def retryLoop {α : Type} (att : Nat → Except String α) (n : Nat) : RetryTrace α :=
  retryLoopGo att n 0 n "None"

/-- Outcome of one HTTP POST of the local client: a transport-level
exception or a response with a status code and body text. -/
inductive HttpOutcome where
  | transportError (msg : String)
  | httpResponse (status : Nat) (text : String)

/-- The attempt body of VisionClient._make_request: a 200 response is
returned, any other status raises an HTTPError naming status and body,
and a transport error is the raised exception itself. -/
def visionAttempt : HttpOutcome → Except String (Nat × String)
  | .transportError m => .error m
  | .httpResponse st tx =>
      if st = 200 then .ok (st, tx)
      else .error ("API returned status " ++ toString st ++ ": " ++ tx)

/-- VisionClient._make_request (client.py) over a network oracle. -/
def VisionClient.make_request (maxRetries : Nat) (post : Nat → HttpOutcome) :
    RetryTrace (Nat × String) :=
  retryLoop (fun attempt => visionAttempt (post attempt)) maxRetries

/-- ClaudeVisionClient._make_request (claude_client.py): the SDK call either
returns a message or raises; there is no status check. -/
def ClaudeVisionClient.make_request (maxRetries : Nat)
    (create : Nat → Except String String) : RetryTrace String :=
  retryLoop create maxRetries

def exceptErrMsg {α : Type} : Except String α → String
  | .error e => e
  | .ok _ => ""

def failPost : Nat → HttpOutcome := fun i => .httpResponse 500 ("boom" ++ toString i)

def failCreate : Nat → Except String String := fun _ => .error "overloaded"

/-! ## schema.py and connection.py: schema creation and migration

State of the SQLite database at the granularity the migration logic
observes: per-table existence and column lists for the two tables whose
columns the migrations alter, plus the rows of schema_version. Indexes and
triggers are idempotent CREATE IF NOT EXISTS statements with no bearing on
the observed properties and are not tracked.
-/

instance exceptDecEq {ε α : Type} [DecidableEq ε] [DecidableEq α] :
    DecidableEq (Except ε α) := fun x y =>
  match x, y with
  | .ok a, .ok b => decidable_of_iff (a = b) (by simp)
  | .error a, .error b => decidable_of_iff (a = b) (by simp)
  | .ok _, .error _ => isFalse (fun h => Except.noConfusion h)
  | .error _, .ok _ => isFalse (fun h => Except.noConfusion h)

structure SchemaDB where
  schema_version : Option (List Nat)
  files : Option (List String)
  metadata : Option (List String)
  activity_tags : Bool
  processing_history : Bool
  metadata_versions : Bool
deriving DecidableEq

def SCHEMA_VERSION : Nat := 4

/-- Columns of the files table as SCHEMA_SQL creates it (v4 shape). -/
def filesColsV4 : List String :=
  ["id", "drive_file_id", "filename", "file_path", "file_size", "width", "height",
   "mime_type", "created_date", "modified_date", "processing_status", "processed_at",
   "thumbnail_path", "creator", "description", "error_message", "created_at", "updated_at"]

/-- Columns of the metadata table as SCHEMA_SQL creates it (v4 shape). -/
def metadataColsV4 : List String :=
  ["id", "file_id", "primary_subject", "visual_quality", "has_people", "people_count",
   "is_indoor", "social_media_score", "social_media_reason", "marketing_score",
   "marketing_use", "season", "time_of_day", "mood_energy", "color_palette",
   "file_path_notes", "extracted_at"]

/-- INSERT OR IGNORE INTO schema_version (version is the primary key). -/
def insertOrIgnoreVersion (rows : List Nat) (v : Nat) : List Nat :=
  if v ∈ rows then rows else rows ++ [v]

/-- create_schema: executescript of SCHEMA_SQL (all CREATE TABLE IF NOT
EXISTS, so an existing table keeps its columns) followed by
INSERT OR IGNORE of SCHEMA_VERSION. -/
def create_schema (db : SchemaDB) : SchemaDB :=
  let db :=
    { db with
      schema_version := some (db.schema_version.getD []),
      files := some (db.files.getD filesColsV4),
      metadata := some (db.metadata.getD metadataColsV4),
      activity_tags := true,
      processing_history := true,
      metadata_versions := true }
  { db with
    schema_version := some (insertOrIgnoreVersion (db.schema_version.getD []) SCHEMA_VERSION) }

/-- get_schema_version: 0 when the schema_version table is missing,
otherwise MAX(version) with NULL (empty table) read as 0. -/
def get_schema_version (db : SchemaDB) : Nat :=
  match db.schema_version with
  | none => 0
  | some rows => rows.foldr max 0

/-- ALTER TABLE ... ADD COLUMN: fails when the table is missing or the
column already exists (sqlite duplicate-column error). -/
def alterAddColumn (t : Option (List String)) (c : String) : Except String (List String) :=
  match t with
  | none => .error "no such table"
  | some cols =>
      if c ∈ cols then .error ("duplicate column name: " ++ c)
      else .ok (cols ++ [c])

/-- Plain INSERT INTO schema_version: a duplicate version violates the
primary key. -/
def insertVersion (t : Option (List Nat)) (v : Nat) : Except String (List Nat) :=
  match t with
  | none => .error "no such table: schema_version"
  | some rows =>
      if v ∈ rows then .error "UNIQUE constraint failed: schema_version.version"
      else .ok (rows ++ [v])

/-- migrate_schema: the version is read once; each step is gated on it.
Step v1 to v2 adds metadata.notes; v2 to v3 adds files.width and
files.height; v3 to v4 adds files.creator and files.description guarded by
the present columns, creates metadata_versions, and records version 4. -/
def migrate_schema (db : SchemaDB) : Except String SchemaDB := do
  let current := get_schema_version db
  if current < SCHEMA_VERSION then do
    let db ←
      if current < 2 then do
        let m ← alterAddColumn db.metadata "notes"
        let sv ← insertVersion db.schema_version 2
        pure { db with metadata := some m, schema_version := some sv }
      else pure db
    let db ←
      if current < 3 then do
        let f ← alterAddColumn db.files "width"
        let f ← alterAddColumn (some f) "height"
        let sv ← insertVersion db.schema_version 3
        pure { db with files := some f, schema_version := some sv }
      else pure db
    let db ←
      if current < 4 then do
        let existing := db.files.getD []
        let f ←
          if "creator" ∈ existing then pure existing
          else alterAddColumn db.files "creator"
        let f ←
          if "description" ∈ existing then pure f
          else alterAddColumn (some f) "description"
        let db := { db with files := some f, metadata_versions := true }
        let sv ← insertVersion db.schema_version 4
        pure { db with schema_version := some sv }
      else pure db
    pure db
  else pure db

/-- DatabaseConnection._initialize_database: read the stored version; when
behind the target, run create_schema and then migrate_schema. -/
def DatabaseConnection.init_database (db : SchemaDB) : Except String SchemaDB :=
  let current := get_schema_version db
  if current < SCHEMA_VERSION then migrate_schema (create_schema db)
  else pure db

/-- A v1-shaped database as the claim describes it: recorded schema version
1, files without width/height/creator/description, metadata without a notes
(or file_path_notes) column, no metadata_versions table. -/
def filesColsV1 : List String :=
  ["id", "drive_file_id", "filename", "file_path", "file_size", "mime_type",
   "created_date", "modified_date", "processing_status", "processed_at",
   "thumbnail_path", "error_message", "created_at", "updated_at"]

def metadataColsV1 : List String :=
  ["id", "file_id", "primary_subject", "visual_quality", "has_people", "people_count",
   "is_indoor", "social_media_score", "social_media_reason", "marketing_score",
   "marketing_use", "season", "time_of_day", "mood_energy", "color_palette",
   "extracted_at"]

def dbV1 : SchemaDB :=
  ⟨some [1], some filesColsV1, some metadataColsV1, true, true, false⟩

/-! ## models.py and repositories.py: records and the repository layer

models.py declares two plain dataclasses. Their field-name lists are the
keyword parameters their generated constructors accept; a Python call with
a keyword naming no declared field raises TypeError, which the embedding
makes explicit.
-/

def SEASON_OPTIONS : List String := ["spring", "summer", "fall", "winter", "unclear"]

def TIME_OF_DAY_OPTIONS : List String := ["morning", "midday", "evening", "unclear"]

/-- The fields of the MediaFile dataclass in models.py. -/
def MediaFileFields : List String :=
  ["drive_file_id", "filename", "file_path", "file_size", "mime_type", "created_date",
   "modified_date", "processing_status", "processed_at", "thumbnail_path", "id"]

/-- The fields of the ExtractedMetadata dataclass in models.py. -/
def ExtractedMetadataFields : List String :=
  ["primary_subject", "visual_quality", "has_people", "people_count",
   "social_media_score", "social_media_reason", "marketing_score", "marketing_use",
   "activity_tags", "season", "time_of_day", "mood_energy", "color_palette",
   "extracted_at", "file_id"]

/-- The keyword arguments FileRepository._row_to_media_file passes to the
MediaFile constructor (repositories.py). -/
def rowToMediaFileKwargs : List String :=
  ["id", "drive_file_id", "filename", "file_path", "file_size", "width", "height",
   "mime_type", "created_date", "modified_date", "creator", "description",
   "processing_status", "processed_at", "thumbnail_path"]

/-- The keyword arguments VisionAnalysisService.process_file passes to the
ExtractedMetadata constructor (service.py). -/
def processFileMetadataKwargs : List String :=
  ["primary_subject", "visual_quality", "has_people", "people_count", "is_indoor",
   "social_media_score", "social_media_reason", "marketing_score", "marketing_use",
   "activity_tags", "season", "time_of_day", "mood_energy", "color_palette", "notes",
   "extracted_at", "file_id"]

/-- A keyword call against a dataclass succeeds only when every keyword
names a declared field. -/
def dataclassCallOk (fields kwargs : List String) : Bool :=
  kwargs.all (fun k => fields.contains k)

/-- The MediaFile record of models.py (timestamps as abstract ticks). -/
structure MediaFileRec where
  drive_file_id : String
  filename : String
  file_path : String
  file_size : Int
  mime_type : String
  created_date : Nat
  modified_date : Nat
  processing_status : String
  processed_at : Option Nat
  thumbnail_path : Option String
  id : Option Nat
deriving DecidableEq

/-- The ExtractedMetadata record of models.py. -/
structure ExtractedMetadataRec where
  primary_subject : String
  visual_quality : Int
  has_people : Bool
  people_count : String
  social_media_score : Int
  social_media_reason : String
  marketing_score : Int
  marketing_use : String
  activity_tags : List String
  season : Option String
  time_of_day : Option String
  mood_energy : Option String
  color_palette : Option String
  extracted_at : Option Nat
  file_id : Option Nat
deriving DecidableEq

/-- A row of the files table (v4 schema). -/
structure FilesRow where
  id : Nat
  drive_file_id : String
  filename : String
  file_path : String
  file_size : Int
  width : Option Int
  height : Option Int
  mime_type : String
  created_date : Nat
  modified_date : Nat
  processing_status : String
  processed_at : Option Nat
  thumbnail_path : Option String
  creator : Option String
  description : Option String
  error_message : Option String
deriving DecidableEq

/-- A row of the metadata table (unique per file_id). -/
structure MetadataRow where
  file_id : Nat
  primary_subject : String
  visual_quality : Int
  has_people : Bool
  people_count : String
  is_indoor : Bool
  social_media_score : Int
  social_media_reason : String
  marketing_score : Int
  marketing_use : String
  season : Option String
  time_of_day : Option String
  mood_energy : Option String
  color_palette : Option String
  file_path_notes : Option String
deriving DecidableEq

/-- The tables the repository layer touches; activity_tags rows are
(file_id, tag_name) pairs, unique per pair. -/
structure AppDB where
  files : List FilesRow
  metadata : List MetadataRow
  activity_tags : List (Nat × String)
deriving DecidableEq

def FileRepository.find_row (db : AppDB) (fid : Nat) : Option FilesRow :=
  db.files.find? (fun r => r.id == fid)

/-- FileRepository._row_to_media_file: the conversion passes the keyword
set rowToMediaFileKwargs to the MediaFile constructor; keywords the
dataclass does not declare make the call raise TypeError. The ok branch
builds the record from the columns the dataclass does declare. -/
def FileRepository.row_to_media_file (row : FilesRow) : Except String MediaFileRec :=
  if dataclassCallOk MediaFileFields rowToMediaFileKwargs then
    .ok ⟨row.drive_file_id, row.filename, row.file_path, row.file_size, row.mime_type,
      row.created_date, row.modified_date, row.processing_status, row.processed_at,
      row.thumbnail_path, some row.id⟩
  else
    .error "TypeError: MediaFile got an unexpected keyword argument width"

/-- FileRepository.get_by_id: SELECT by id, then row conversion; a missing
row is the None sentinel, a conversion failure propagates as an exception. -/
def FileRepository.get_by_id (db : AppDB) (fid : Nat) : Except String (Option MediaFileRec) :=
  match FileRepository.find_row db fid with
  | none => .ok none
  | some row => (FileRepository.row_to_media_file row).map some

/-- FileRepository.update_processing_status: one UPDATE setting
processing_status, error_message and processed_at together; processed_at
defaults to now only when entering completed or failed without an explicit
timestamp. -/
def FileRepository.update_processing_status (db : AppDB) (fid : Nat) (status : String)
    (error_message : Option String) (processed_at : Option Nat) (now : Nat) : AppDB :=
  let pa := if processed_at = none ∧ (status = "completed" ∨ status = "failed")
            then some now else processed_at
  { db with files := db.files.map (fun r =>
      if r.id = fid then
        { r with processing_status := status, error_message := error_message,
                 processed_at := pa }
      else r) }

/-- SQL COALESCE of the bound argument and the current column value, in
that order (the argument takes precedence when non-NULL). -/
def coalesce {α : Type} : Option α → Option α → Option α
  | some v, _ => some v
  | none, w => w

/-- FileRepository.update_drive_metadata: one UPDATE setting each of
creator/description/width/height to COALESCE(argument, column). -/
def FileRepository.update_drive_metadata (db : AppDB) (fid : Nat)
    (creator description : Option String) (width height : Option Int) : AppDB :=
  { db with files := db.files.map (fun r =>
      if r.id = fid then
        { r with creator := coalesce creator r.creator,
                 description := coalesce description r.description,
                 width := coalesce width r.width,
                 height := coalesce height r.height }
      else r) }

/-- Python truthiness of the optional text fields checked by
_validate_metadata (None and the empty string are falsy). -/
def optTruthy : Option String → Bool
  | none => false
  | some s => s ≠ ""

/-- MetadataRepository._validate_metadata. -/
def MetadataRepository.validate_metadata (m : ExtractedMetadataRec) : Except String Unit :=
  if ¬ (1 ≤ m.visual_quality ∧ m.visual_quality ≤ 5) then
    .error "Visual quality must be between 1 and 5"
  else if ¬ PEOPLE_COUNT_OPTIONS.contains m.people_count then
    .error ("Invalid people_count: " ++ m.people_count)
  else if ¬ (1 ≤ m.social_media_score ∧ m.social_media_score ≤ 5) then
    .error "Social media score must be between 1 and 5"
  else if ¬ (1 ≤ m.marketing_score ∧ m.marketing_score ≤ 5) then
    .error "Marketing score must be between 1 and 5"
  else if optTruthy m.season ∧ ¬ SEASON_OPTIONS.contains (m.season.getD "") then
    .error ("Invalid season: " ++ m.season.getD "")
  else if optTruthy m.time_of_day ∧ ¬ TIME_OF_DAY_OPTIONS.contains (m.time_of_day.getD "") then
    .error ("Invalid time_of_day: " ++ m.time_of_day.getD "")
  else .ok ()

/-- Attribute access on the ExtractedMetadata dataclass: reading a name the
dataclass does not declare raises AttributeError. The value argument is the
column value the attribute would supply if it existed (the branch is dead
whenever the field list lacks the name). -/
def pyGetAttr {α : Type} (fields : List String) (attr : String) (v : α) : Except String α :=
  if fields.contains attr then .ok v
  else .error ("AttributeError: ExtractedMetadata has no attribute " ++ attr)

/-- The insert-or-replace write of MetadataRepository.upsert:
ON CONFLICT(file_id) DO UPDATE overwrites every column of the one
conflicting row. -/
def MetadataRepository.upsert_row (db : AppDB) (row : MetadataRow) : AppDB :=
  if db.metadata.any (fun r => r.file_id == row.file_id) then
    { db with metadata := db.metadata.map (fun r =>
        if r.file_id = row.file_id then row else r) }
  else
    { db with metadata := db.metadata ++ [row] }

/-- MetadataRepository.upsert: validate, then bind the SQL parameter tuple,
which reads metadata.is_indoor and metadata.notes - attributes models.py
does not declare - before executing the insert-or-replace. -/
def MetadataRepository.upsert (db : AppDB) (m : ExtractedMetadataRec) :
    Except String AppDB := do
  MetadataRepository.validate_metadata m
  let isInd ← pyGetAttr ExtractedMetadataFields "is_indoor" false
  let fpn ← pyGetAttr ExtractedMetadataFields "notes" (none : Option String)
  pure (MetadataRepository.upsert_row db
    ⟨m.file_id.getD 0, m.primary_subject, m.visual_quality, m.has_people,
     m.people_count, isInd, m.social_media_score, m.social_media_reason,
     m.marketing_score, m.marketing_use, m.season, m.time_of_day, m.mood_energy,
     m.color_palette, fpn⟩)

/-- ActivityTagRepository.add_tags: every tag is validated against the
12-term vocabulary before any insert; inserts are INSERT OR IGNORE. -/
def ActivityTagRepository.add_tags (db : AppDB) (fid : Nat) (tags : List String) :
    Except String AppDB :=
  if tags.all (fun t => ACTIVITY_TAGS.contains t) then
    .ok { db with activity_tags := tags.foldl (fun acc t =>
        if acc.contains (fid, t) then acc else acc ++ [(fid, t)]) db.activity_tags }
  else .error "Invalid activity tag"

/-- ActivityTagRepository.remove_tags with no tag list: delete every tag of
the file. -/
def ActivityTagRepository.remove_tags_all (db : AppDB) (fid : Nat) : AppDB :=
  { db with activity_tags := db.activity_tags.filter (fun p => p.1 ≠ fid) }

/-! ## service.py: VisionAnalysisService -/

/-- The 9 still-image MIME types recognized by
VisionAnalysisService._is_image_file. -/
def VisionAnalysisService.image_mime_types : List String :=
  ["image/jpeg", "image/jpg", "image/png", "image/gif", "image/bmp", "image/tiff",
   "image/webp", "image/heic", "image/heif"]

def VisionAnalysisService.is_image_file (mime : String) : Bool :=
  VisionAnalysisService.image_mime_types.contains (asciiLower mime)

/-- The dict a vision backend returns, restricted to the keys process_file
reads (the required keys are indexed directly, the optional ones through
dict.get). -/
structure AnalysisDict where
  primary_subject : String
  visual_quality : Int
  has_people : Bool
  people_count : String
  is_indoor : Bool
  social_media_score : Int
  social_media_reason : String
  marketing_score : Int
  marketing_use : String
  activity_tags : List String
  season : Option String
  time_of_day : Option String
  mood_energy : Option String
  color_palette : Option String
  notes : Option String
deriving DecidableEq

/-- The ExtractedMetadata(...) construction inside process_file: the
keyword set includes is_indoor and notes, which the dataclass does not
declare, so the call raises; the ok branch builds the record from the
declared fields. -/
def VisionAnalysisService.make_extracted_metadata (d : AnalysisDict) (now fid : Nat) :
    Except String ExtractedMetadataRec :=
  if dataclassCallOk ExtractedMetadataFields processFileMetadataKwargs then
    .ok ⟨d.primary_subject, d.visual_quality, d.has_people, d.people_count,
      d.social_media_score, d.social_media_reason, d.marketing_score, d.marketing_use,
      d.activity_tags, d.season, d.time_of_day, d.mood_energy, d.color_palette,
      some now, some fid⟩
  else
    .error "TypeError: ExtractedMetadata got an unexpected keyword argument is_indoor"

/-- VisionAnalysisService.process_file over download/analyze oracles.
The outer try returns failure without side effects when the record is
missing or its conversion raises; a non-image file is skipped before any
status write; the inner try marks the file failed with the raised message
(processed_at auto-stamped); tag replacement is guarded by a non-empty tag
list, remove_tags failures being swallowed (remove never fails here). -/
def VisionAnalysisService.process_file (db : AppDB) (fid : Nat)
    (download : String → Except String Unit)
    (analyze : String → Except String AnalysisDict) (now : Nat) : Bool × AppDB :=
  match FileRepository.get_by_id db fid with
  | .error _ => (false, db)
  | .ok none => (false, db)
  | .ok (some mf) =>
      if ¬ VisionAnalysisService.is_image_file mf.mime_type then (false, db)
      else
        let db1 := FileRepository.update_processing_status db fid "in_progress" none none now
        let inner : Except String AppDB := do
          download mf.drive_file_id
          let d ← analyze mf.filename
          let em ← VisionAnalysisService.make_extracted_metadata d now fid
          let db2 ← MetadataRepository.upsert db1 em
          let db3 ←
            if em.activity_tags ≠ [] then
              ActivityTagRepository.add_tags
                (ActivityTagRepository.remove_tags_all db2 fid) fid em.activity_tags
            else pure db2
          pure (FileRepository.update_processing_status db3 fid "completed" none (some now) now)
        match inner with
        | .ok db4 => (true, db4)
        | .error e =>
            (false, FileRepository.update_processing_status db1 fid "failed" (some e) none now)

/-! ## Theorems about the data model and the repository layer -/

/-- A files row with a recorded failure, for the C9 witness. -/
def rowC9 : FilesRow :=
  { id := 1, drive_file_id := "d1", filename := "a.jpg", file_path := "p/a.jpg",
    file_size := 10, width := none, height := none, mime_type := "image/jpeg",
    created_date := 0, modified_date := 0, processing_status := "failed",
    processed_at := some 9, thumbnail_path := none, creator := none,
    description := none, error_message := some "old error" }

def dbC9 : AppDB := ⟨[rowC9], [], []⟩

/-- A files row holding pre-existing Drive metadata, for C5. -/
def rowC5 : FilesRow :=
  { id := 1, drive_file_id := "d1", filename := "a.jpg", file_path := "p/a.jpg",
    file_size := 10, width := some 800, height := none, mime_type := "image/jpeg",
    created_date := 0, modified_date := 0, processing_status := "pending",
    processed_at := none, thumbnail_path := none, creator := some "X",
    description := none, error_message := none }

def dbC5 : AppDB := ⟨[rowC5], [], []⟩

/-- A video row for the C8 witness. -/
def rowC8 : FilesRow :=
  { id := 7, drive_file_id := "d7", filename := "clip.mp4", file_path := "p/clip.mp4",
    file_size := 99, width := none, height := none, mime_type := "video/mp4",
    created_date := 0, modified_date := 0, processing_status := "pending",
    processed_at := none, thumbnail_path := none, creator := none,
    description := none, error_message := none }

def dbC8 : AppDB := ⟨[rowC8], [], []⟩

def dlOk : String → Except String Unit := fun _ => .ok ()

def anUnused : String → Except String AnalysisDict := fun _ => .error "not analyzed"

/-- A pending image row for the C4 reprocessing scenario. -/
def rowC4 : FilesRow :=
  { id := 1, drive_file_id := "d1", filename := "a.jpg", file_path := "p/a.jpg",
    file_size := 10, width := none, height := none, mime_type := "image/jpeg",
    created_date := 0, modified_date := 0, processing_status := "pending",
    processed_at := none, thumbnail_path := none, creator := none,
    description := none, error_message := none }

def dbC4 : AppDB := ⟨[rowC4], [], []⟩

/-- First successful analysis result for C4. -/
def analysisFirst : AnalysisDict :=
  { primary_subject := "people planting raised beds", visual_quality := 4,
    has_people := true, people_count := "3-5", is_indoor := false,
    social_media_score := 4, social_media_reason := "engaging", marketing_score := 3,
    marketing_use := "general", activity_tags := ["gardening"],
    season := some "summer", time_of_day := some "midday", mood_energy := some "calm",
    color_palette := some "green", notes := none }

/-- Second successful analysis result for C4, with different values. -/
def analysisSecond : AnalysisDict :=
  { analysisFirst with
    primary_subject := "tomatoes on the vine", visual_quality := 5,
    activity_tags := ["cooking"] }

def anFirst : String → Except String AnalysisDict := fun _ => .ok analysisFirst

def anSecond : String → Except String AnalysisDict := fun _ => .ok analysisSecond

/-! ## config.py: Config.validate and the cli load_config call -/

/-- The configuration fields Config.validate reads. -/
structure ConfigRec where
  credentials_path : String
  temperature : Rat
  max_tokens : Int
  max_file_size_mb : Int
  concurrent_workers : Int
  thumbnail_size : List Int
deriving DecidableEq

/-- The keyword-capable parameters of Config.validate beyond self: the
config.py signature is validate(self), so there are none. -/
def configValidateParams : List String := []

/-- The body of Config.validate: the credentials-file existence check runs
unconditionally before the numeric checks; fsExists stands for
Path(...).exists(). -/
def Config.validate_body (fsExists : String → Bool) (c : ConfigRec) : Except String Unit :=
  if ¬ fsExists c.credentials_path then
    .error ("Google Drive credentials file not found: " ++ c.credentials_path)
  else if c.temperature < 0 ∨ c.temperature > 1 then
    .error "Vision model temperature must be between 0 and 1"
  else if c.max_tokens ≤ 0 then
    .error "Vision model max_tokens must be positive"
  else if c.max_file_size_mb ≤ 0 then
    .error "Processing max_file_size_mb must be positive"
  else if c.concurrent_workers ≤ 0 then
    .error "Processing concurrent_workers must be positive"
  else if c.thumbnail_size.length ≠ 2 then
    .error "Processing thumbnail_size must be [width, height]"
  else if c.thumbnail_size.any (fun s => s ≤ 0) then
    .error "Processing thumbnail_size values must be positive"
  else .ok ()

/-- A Python call config.validate(**kwargs): a keyword naming no declared
parameter raises TypeError before the body runs. -/
def Config.validate_call (fsExists : String → Bool) (c : ConfigRec)
    (kwargNames : List String) : Except String Unit :=
  if kwargNames.all (fun k => configValidateParams.contains k) then
    Config.validate_body fsExists c
  else .error "TypeError: validate got an unexpected keyword argument check_credentials"

/-- The keyword the cli load_config helper (main.py) and
scripts/reprocess_failed.py pass to config.validate. -/
def loadConfigValidateKwargs : List String := ["check_credentials"]

/-- The documented defaults of the groups validate reads. -/
def cfgDefaults : ConfigRec :=
  { credentials_path := "credentials.json", temperature := mkRat 2 5,
    max_tokens := 500, max_file_size_mb := 50, concurrent_workers := 4,
    thumbnail_size := [200, 200] }

/-! ## Theorems -/

theorem pyclamp_bounds (m : Int) : 1 ≤ pymax 1 (pymin 5 m) ∧ pymax 1 (pymin 5 m) ≤ 5 := by
  unfold pymax pymin; split_ifs <;> omega

theorem pyclamp_fix {n : Int} (h1 : 1 ≤ n) (h5 : n ≤ 5) : pymax 1 (pymin 5 n) = n := by
  unfold pymax pymin; split_ifs <;> omega

theorem to_int_1_5_clamped {v : PyVal} {n : Int} (h : to_int_1_5 v = some n) :
    1 ≤ n ∧ n ≤ 5 := by
  match v with
  | .scalar (.sstr s) =>
      simp only [to_int_1_5] at h
      split at h
      · obtain ⟨q, _, rfl⟩ := Option.map_eq_some'.mp h
        exact pyclamp_bounds _
      · obtain ⟨m, _, rfl⟩ := Option.map_eq_some'.mp h
        exact pyclamp_bounds _
  | .scalar (.sint m) =>
      simp only [to_int_1_5, Option.some.injEq] at h
      exact h ▸ pyclamp_bounds m
  | .scalar (.sbool b) =>
      simp only [to_int_1_5, Option.some.injEq] at h
      exact h ▸ pyclamp_bounds _
  | .scalar .snone => simp [to_int_1_5] at h
  | .pylist xs => simp [to_int_1_5] at h

theorem normScore_idem (v : PyVal) : normScore (normScore v) = normScore v := by
  cases h : to_int_1_5 v with
  | none =>
      have h1 : normScore v = v := by unfold normScore; rw [h]
      rw [h1]; exact h1
  | some n =>
      obtain ⟨hb1, hb5⟩ := to_int_1_5_clamped h
      have h1 : normScore v = pvInt n := by unfold normScore; rw [h]
      have h3 : to_int_1_5 (pvInt n) = some n := by
        show some (pymax 1 (pymin 5 n)) = some n
        rw [pyclamp_fix hb1 hb5]
      have h2 : normScore (pvInt n) = pvInt n := by unfold normScore; rw [h3]
      rw [h1, h2]

theorem peopleCountLookup_cases (s : String) :
    peopleCountLookup s = "none" ∨ peopleCountLookup s = "1-2" ∨
    peopleCountLookup s = "3-5" ∨ peopleCountLookup s = "6-10" ∨
    peopleCountLookup s = "10+" := by
  unfold peopleCountLookup
  split_ifs <;> simp

theorem normPeopleCount_idem (v : PyVal) :
    normPeopleCount (normPeopleCount v) = normPeopleCount v := by
  have h := peopleCountLookup_cases (peopleCountKey v)
  unfold normPeopleCount
  rcases h with h | h | h | h | h <;> rw [h] <;> decide

theorem seasonLookup_cases (s : String) :
    seasonLookup s = "spring" ∨ seasonLookup s = "summer" ∨ seasonLookup s = "fall" ∨
    seasonLookup s = "winter" ∨ seasonLookup s = "unclear" := by
  unfold seasonLookup
  split_ifs <;> simp

theorem normSeason_idem (v : PyVal) : normSeason (normSeason v) = normSeason v := by
  match v with
  | .scalar (.sstr s) =>
      have h := seasonLookup_cases (asciiLower (pyStrip s))
      show normSeason (pvStr (seasonLookup (asciiLower (pyStrip s))))
        = pvStr (seasonLookup (asciiLower (pyStrip s)))
      rcases h with h | h | h | h | h <;> rw [h] <;> decide
  | .scalar .snone => rfl
  | .scalar (.sbool b) => rfl
  | .scalar (.sint n) => rfl
  | .pylist xs => rfl

theorem timeOfDayLookup_cases (s : String) :
    timeOfDayLookup s = "morning" ∨ timeOfDayLookup s = "midday" ∨
    timeOfDayLookup s = "evening" ∨ timeOfDayLookup s = "unclear" := by
  unfold timeOfDayLookup
  split_ifs <;> simp

theorem normTimeOfDay_idem (v : PyVal) : normTimeOfDay (normTimeOfDay v) = normTimeOfDay v := by
  match v with
  | .scalar (.sstr s) =>
      have h := timeOfDayLookup_cases (asciiLower (pyStrip s))
      show normTimeOfDay (pvStr (timeOfDayLookup (asciiLower (pyStrip s))))
        = pvStr (timeOfDayLookup (asciiLower (pyStrip s)))
      rcases h with h | h | h | h <;> rw [h] <;> decide
  | .scalar .snone => rfl
  | .scalar (.sbool b) => rfl
  | .scalar (.sint n) => rfl
  | .pylist xs => rfl

theorem asciiLower_tag_fix {t : String} (h : t ∈ ACTIVITY_TAGS) : asciiLower t = t := by
  simp only [ACTIVITY_TAGS, List.mem_cons, List.mem_singleton, List.not_mem_nil, or_false] at h
  rcases h with rfl | rfl | rfl | rfl | rfl | rfl | rfl | rfl | rfl | rfl | rfl | rfl <;> decide

theorem sortedTagSet_sorted (l : List String) : List.Sorted (· ≤ ·) (sortedTagSet l) :=
  List.sorted_insertionSort _ _

theorem sortedTagSet_nodup (l : List String) : (sortedTagSet l).Nodup :=
  ((List.perm_insertionSort _ _).nodup_iff).mpr (List.nodup_dedup l)

theorem sortedTagSet_mem {l : List String} {t : String} (h : t ∈ sortedTagSet l) : t ∈ l :=
  List.mem_dedup.mp ((List.perm_insertionSort (· ≤ ·) l.dedup).mem_iff.mp h)

theorem sortedTagSet_fix {l : List String} (hnd : l.Nodup) (hs : List.Sorted (· ≤ ·) l) :
    sortedTagSet l = l := by
  unfold sortedTagSet
  rw [List.Nodup.dedup hnd, List.Sorted.insertionSort_eq hs]

theorem tagListOfList_mem {xs : List PyScalar} {t : String} (h : t ∈ tagListOfList xs) :
    t ∈ ACTIVITY_TAGS := by
  have h2 := List.of_mem_filter (sortedTagSet_mem h)
  simpa [List.elem_iff] using h2

theorem tagListOfList_idem (xs : List PyScalar) :
    tagListOfList ((tagListOfList xs).map PyScalar.sstr) = tagListOfList xs := by
  have h1 : ((tagListOfList xs).map PyScalar.sstr).map (fun x => asciiLower (pyStrScalar x))
      = tagListOfList xs := by
    rw [List.map_map]
    calc (tagListOfList xs).map ((fun x => asciiLower (pyStrScalar x)) ∘ PyScalar.sstr)
        = (tagListOfList xs).map id :=
          List.map_congr_left (fun t ht => asciiLower_tag_fix (tagListOfList_mem ht))
      _ = tagListOfList xs := List.map_id _
  have h2 : (tagListOfList xs).filter (fun t => ACTIVITY_TAGS.contains t)
      = tagListOfList xs :=
    List.filter_eq_self.mpr (fun t ht => by
      simpa [List.elem_iff] using tagListOfList_mem ht)
  show sortedTagSet ((((tagListOfList xs).map PyScalar.sstr).map
      (fun x => asciiLower (pyStrScalar x))).filter (fun t => ACTIVITY_TAGS.contains t))
    = tagListOfList xs
  rw [h1, h2]
  exact sortedTagSet_fix (sortedTagSet_nodup _) (sortedTagSet_sorted _)

theorem normActivityTags_idem (v : PyVal) :
    normActivityTags (normActivityTags v) = normActivityTags v := by
  match v with
  | .scalar (.sstr s) =>
      show PyVal.pylist ((tagListOfList ((tagListOfList (splitTagString s)).map
          PyScalar.sstr)).map PyScalar.sstr)
        = PyVal.pylist ((tagListOfList (splitTagString s)).map PyScalar.sstr)
      rw [tagListOfList_idem]
  | .pylist xs =>
      show PyVal.pylist ((tagListOfList ((tagListOfList xs).map PyScalar.sstr)).map
          PyScalar.sstr)
        = PyVal.pylist ((tagListOfList xs).map PyScalar.sstr)
      rw [tagListOfList_idem]
  | .scalar .snone => rfl
  | .scalar (.sbool b) => rfl
  | .scalar (.sint n) => rfl

/-- C7: the two-pass backend normalizer maps the people-count string
"6 people" to the bucket "6-10", the unrecognized value "two" to "10+",
the score string "4.0" to the integer 4, and the season "Autumn" to
"fall". -/
theorem C7_normalizer_examples :
    (ClaudeVisionClient.normalize_metadata
      { emptyMeta with people_count := some (pvStr "6 people") }).people_count
      = some (pvStr "6-10") ∧
    (ClaudeVisionClient.normalize_metadata
      { emptyMeta with people_count := some (pvStr "two") }).people_count
      = some (pvStr "10+") ∧
    (ClaudeVisionClient.normalize_metadata
      { emptyMeta with social_media_score := some (pvStr "4.0") }).social_media_score
      = some (pvInt 4) ∧
    (ClaudeVisionClient.normalize_metadata
      { emptyMeta with season := some (pvStr "Autumn") }).season
      = some (pvStr "fall") := by
  refine ⟨by decide, by decide, by decide, by decide⟩

/-- C10: the two-pass backend normalizer is idempotent; applying
_normalize_metadata twice to any metadata dict equals applying it once, so
every canonical output (coerced booleans, clamped scores, the five
people-count buckets, sorted valid tag lists, canonical season and
time-of-day values, and the copied file_path_notes entry) is a fixed point. -/
theorem C10_normalize_idempotent (m : MetaDict) :
    ClaudeVisionClient.normalize_metadata (ClaudeVisionClient.normalize_metadata m) =
      ClaudeVisionClient.normalize_metadata m := by
  cases m with
  | mk ps hp ii vq sms ms pc atg se td no fpn =>
      simp only [ClaudeVisionClient.normalize_metadata, MetaDict.mk.injEq]
      refine ⟨trivial, ?_, ?_, ?_, ?_, ?_, ?_, ?_, ?_, ?_, trivial, ?_⟩
      · cases hp <;> rfl
      · cases ii <;> rfl
      · cases vq with
        | none => rfl
        | some v => exact congrArg some (normScore_idem v)
      · cases sms with
        | none => rfl
        | some v => exact congrArg some (normScore_idem v)
      · cases ms with
        | none => rfl
        | some v => exact congrArg some (normScore_idem v)
      · cases pc with
        | none => rfl
        | some v => exact congrArg some (normPeopleCount_idem v)
      · cases atg with
        | none => rfl
        | some v => exact congrArg some (normActivityTags_idem v)
      · cases se with
        | none => rfl
        | some v => exact congrArg some (normSeason_idem v)
      · cases td with
        | none => rfl
        | some v => exact congrArg some (normTimeOfDay_idem v)
      · cases fpn <;> cases no <;> simp

theorem retryLoopGo_all_fail {α : Type} (att : Nat → Except String α) (n : Nat) :
    ∀ fuel attempt lastErr, attempt + fuel = n → 1 ≤ fuel →
      (∀ i, attempt ≤ i → i < n → ∃ m, att i = .error m) →
      retryLoopGo att n attempt fuel lastErr =
        ⟨.error ("All " ++ toString n ++ " API requests failed. Last error: "
            ++ exceptErrMsg (att (n - 1))),
          (List.range' attempt (fuel - 1)).map (fun a => 2 ^ a), fuel⟩ := by
  intro fuel
  induction fuel with
  | zero => intro attempt lastErr _ h1 _; omega
  | succ f ih =>
      intro attempt lastErr hsum _ hfail
      obtain ⟨m, hm⟩ := hfail attempt (le_refl _) (by omega)
      by_cases hf : f = 0
      · subst hf
        have hatt : attempt = n - 1 := by omega
        have hlt : ¬ (attempt + 1 < n) := by omega
        simp only [retryLoopGo, hm, hlt, if_false, List.nil_append]
        rw [← hatt, hm]
        simp [exceptErrMsg, List.range']
      · have hrec := ih (attempt + 1) m (by omega) (by omega)
          (fun i hi1 hi2 => hfail i (by omega) hi2)
        have hlt : attempt + 1 < n := by omega
        have hr : List.range' attempt f = attempt :: List.range' (attempt + 1) (f - 1) := by
          conv_lhs => rw [show f = (f - 1) + 1 from by omega]
          rw [List.range'_succ]
        simp [retryLoopGo, hm, hrec, hlt, hr]

theorem retryLoopGo_success {α : Type} (att : Nat → Except String α) (n : Nat) :
    ∀ fuel attempt lastErr k r, attempt + fuel = n → attempt ≤ k → k < n →
      (∀ i, attempt ≤ i → i < k → ∃ m, att i = .error m) →
      att k = .ok r →
      (retryLoopGo att n attempt fuel lastErr).result = .ok r ∧
      (retryLoopGo att n attempt fuel lastErr).attemptsMade = k - attempt + 1 := by
  intro fuel
  induction fuel with
  | zero => intro attempt lastErr k r hsum hak hkn _ _; omega
  | succ f ih =>
      intro attempt lastErr k r hsum hak hkn hfail hok
      by_cases hk : attempt = k
      · subst hk
        simp [retryLoopGo, hok]
      · obtain ⟨m, hm⟩ := hfail attempt (le_refl _) (by omega)
        have hrec := ih (attempt + 1) m k r (by omega) (by omega) hkn
          (fun i hi1 hi2 => hfail i (by omega) hi2) hok
        simp only [retryLoopGo, hm]
        refine ⟨hrec.1, ?_⟩
        have := hrec.2
        omega

/-- C6: with max_retries = n at least 1 and every attempt failing (non-200
response or transport error), both the local client and the two-pass client
request helpers raise a Vision-Model error after exactly n attempts whose
message ends with the last underlying failure, sleeping 2 ^ attempt seconds
after every attempt but the last; and whenever some attempt succeeds after
only failures, the response is returned with no error. -/
theorem C6_retry_exhaustion (n : Nat) (post : Nat → HttpOutcome)
    (create : Nat → Except String String)
    (hn : 1 ≤ n)
    (hpost : ∀ i, i < n → ∃ m, visionAttempt (post i) = .error m)
    (hcreate : ∀ i, i < n → ∃ m, create i = .error m) :
    VisionClient.make_request n post =
      ⟨.error ("All " ++ toString n ++ " API requests failed. Last error: "
          ++ exceptErrMsg (visionAttempt (post (n - 1)))),
        (List.range (n - 1)).map (fun a => 2 ^ a), n⟩ ∧
    ClaudeVisionClient.make_request n create =
      ⟨.error ("All " ++ toString n ++ " API requests failed. Last error: "
          ++ exceptErrMsg (create (n - 1))),
        (List.range (n - 1)).map (fun a => 2 ^ a), n⟩ ∧
    (∀ (post2 : Nat → HttpOutcome) (k : Nat) (r : Nat × String), k < n →
      (∀ i, i < k → ∃ m, visionAttempt (post2 i) = .error m) →
      visionAttempt (post2 k) = .ok r →
      (VisionClient.make_request n post2).result = .ok r ∧
      (VisionClient.make_request n post2).attemptsMade = k + 1) := by
  refine ⟨?_, ?_, ?_⟩
  · have h := retryLoopGo_all_fail (fun attempt => visionAttempt (post attempt)) n
      n 0 "None" (by omega) hn (fun i _ hi2 => hpost i hi2)
    rw [VisionClient.make_request, retryLoop, h, List.range_eq_range']
  · have h := retryLoopGo_all_fail create n n 0 "None" (by omega) hn
      (fun i _ hi2 => hcreate i hi2)
    rw [ClaudeVisionClient.make_request, retryLoop, h, List.range_eq_range']
  · intro post2 k r hkn hfail hok
    have h := retryLoopGo_success (fun attempt => visionAttempt (post2 attempt)) n
      n 0 "None" k r (by omega) (by omega) hkn (fun i _ hi2 => hfail i hi2) hok
    exact ⟨h.1, by have := h.2; simpa using this⟩

/-- Witness for C6: max_retries = 3, every attempt failing. -/
theorem C6_retry_exhaustion_witness :
    (VisionClient.make_request 3 failPost).result =
      .error "All 3 API requests failed. Last error: API returned status 500: boom2" ∧
    (VisionClient.make_request 3 failPost).sleeps = [1, 2] ∧
    (VisionClient.make_request 3 failPost).attemptsMade = 3 ∧
    (ClaudeVisionClient.make_request 3 failCreate).result =
      .error "All 3 API requests failed. Last error: overloaded" ∧
    (ClaudeVisionClient.make_request 3 failCreate).sleeps = [1, 2] := by
  have h := C6_retry_exhaustion 3 failPost failCreate (by decide)
    (fun i _ => ⟨_, rfl⟩) (fun i _ => ⟨_, rfl⟩)
  rw [h.1, h.2.1]
  exact ⟨congrArg Except.error (by decide), by decide, rfl,
    congrArg Except.error (by decide), by decide⟩

/-- C1: the initialization sequence run on a v1-shaped database does NOT
converge to the claimed state. create_schema records version 4 via
INSERT OR IGNORE before migrate_schema reads the version, so every
migration step is skipped: the final database reports version 4 while
metadata.notes and files.width/height/creator/description are still
missing (metadata_versions alone gets created, by the idempotent CREATE).
Calling migrate_schema directly on the same database performs every step,
exhibiting the intended behavior the initialization ordering defeats. -/
theorem C1_migration_convergence_fails :
    DatabaseConnection.init_database dbV1 =
      .ok ⟨some [1, 4], some filesColsV1, some metadataColsV1, true, true, true⟩ ∧
    get_schema_version ⟨some [1, 4], some filesColsV1, some metadataColsV1,
      true, true, true⟩ = 4 ∧
    "notes" ∉ metadataColsV1 ∧
    "width" ∉ filesColsV1 ∧ "height" ∉ filesColsV1 ∧
    "creator" ∉ filesColsV1 ∧ "description" ∉ filesColsV1 ∧
    migrate_schema dbV1 =
      .ok ⟨some [1, 2, 3, 4],
        some (filesColsV1 ++ ["width", "height", "creator", "description"]),
        some (metadataColsV1 ++ ["notes"]), true, true, true⟩ := by
  refine ⟨by decide, by decide, by decide, by decide, by decide, by decide, by decide, ?_⟩
  decide

/-- C2: the dataclasses in models.py do not declare the attributes the
claim lists - MediaFile lacks width, height, creator, description and
error_message, ExtractedMetadata lacks is_indoor and notes - while
FileRepository._row_to_media_file and VisionAnalysisService.process_file
pass exactly those keywords, so the record constructions raise TypeError
instead of producing well-formed records. -/
theorem C2_model_record_fields_missing :
    dataclassCallOk MediaFileFields rowToMediaFileKwargs = false ∧
    "width" ∈ rowToMediaFileKwargs ∧ "width" ∉ MediaFileFields ∧
    "height" ∉ MediaFileFields ∧ "creator" ∉ MediaFileFields ∧
    "description" ∉ MediaFileFields ∧ "error_message" ∉ MediaFileFields ∧
    dataclassCallOk ExtractedMetadataFields processFileMetadataKwargs = false ∧
    "is_indoor" ∈ processFileMetadataKwargs ∧ "is_indoor" ∉ ExtractedMetadataFields ∧
    "notes" ∈ processFileMetadataKwargs ∧ "notes" ∉ ExtractedMetadataFields ∧
    (∀ row : FilesRow, FileRepository.row_to_media_file row =
      .error "TypeError: MediaFile got an unexpected keyword argument width") := by
  refine ⟨by decide, by decide, by decide, by decide, by decide, by decide, by decide,
    by decide, by decide, by decide, by decide, by decide, ?_⟩
  intro row
  unfold FileRepository.row_to_media_file
  rw [if_neg]
  rw [show dataclassCallOk MediaFileFields rowToMediaFileKwargs = false from by decide]
  exact Bool.false_ne_true

/-- Identity-preserving single-row update through find?: updating exactly
the rows whose id matches the probed id rewrites the found row and nothing
before it. -/
theorem find_row_after_update (l : List FilesRow) (fid : Nat) (g : FilesRow → FilesRow)
    (hg : ∀ x, (g x).id = x.id) (r : FilesRow)
    (h : l.find? (fun x => x.id == fid) = some r) :
    (l.map (fun x => if x.id = fid then g x else x)).find? (fun x => x.id == fid)
      = some (g r) := by
  induction l with
  | nil => simp at h
  | cons a t ih =>
      simp only [List.map_cons]
      by_cases ha : a.id = fid
      · have hpa : (a.id == fid) = true := beq_iff_eq.mpr ha
        have hpg : ((g a).id == fid) = true := beq_iff_eq.mpr (by rw [hg]; exact ha)
        simp only [List.find?, hpa] at h
        obtain rfl : a = r := by injection h
        rw [if_pos ha]
        simp only [List.find?, hpg]
      · have hpa : (a.id == fid) = false := by simp [ha]
        simp only [List.find?, hpa] at h
        rw [if_neg ha]
        simp only [List.find?, hpa]
        exact ih h

/-- C9: every update_processing_status call overwrites processing_status,
error_message and processed_at in one statement: defaulted transitions to
pending or in_progress clear any stored error message and timestamp, a
defaulted transition to completed or failed clears the error of an earlier
attempt and stamps now, and an explicit timestamp is stored verbatim for
any status (the automatic stamp applies only to completed/failed). -/
theorem C9_update_status_overwrites (db : AppDB) (fid : Nat) (r : FilesRow) (now : Nat)
    (h : FileRepository.find_row db fid = some r) :
    (FileRepository.find_row
        (FileRepository.update_processing_status db fid "in_progress" none none now) fid
      = some { r with
               processing_status := "in_progress", error_message := none,
               processed_at := none }) ∧
    (FileRepository.find_row
        (FileRepository.update_processing_status db fid "pending" none none now) fid
      = some { r with
               processing_status := "pending", error_message := none,
               processed_at := none }) ∧
    (FileRepository.find_row
        (FileRepository.update_processing_status db fid "completed" none none now) fid
      = some { r with
               processing_status := "completed", error_message := none,
               processed_at := some now }) ∧
    (FileRepository.find_row
        (FileRepository.update_processing_status db fid "failed" none none now) fid
      = some { r with
               processing_status := "failed", error_message := none,
               processed_at := some now }) ∧
    (∀ (st : String) (em : Option String) (pa : Nat),
      FileRepository.find_row
        (FileRepository.update_processing_status db fid st em (some pa) now) fid
      = some { r with
               processing_status := st, error_message := em,
               processed_at := some pa }) := by
  have key : ∀ (st : String) (em : Option String) (pa0 : Option Nat),
      FileRepository.find_row
          (FileRepository.update_processing_status db fid st em pa0 now) fid
        = some { r with
            processing_status := st, error_message := em,
            processed_at :=
              if pa0 = none ∧ (st = "completed" ∨ st = "failed")
              then some now else pa0 } := by
    intro st em pa0
    simp only [FileRepository.update_processing_status, FileRepository.find_row]
    exact find_row_after_update db.files fid
      (fun x => { x with
        processing_status := st, error_message := em,
        processed_at :=
          if pa0 = none ∧ (st = "completed" ∨ st = "failed")
          then some now else pa0 })
      (fun x => rfl) r h
  refine ⟨?_, ?_, ?_, ?_, ?_⟩
  · rw [key "in_progress" none none, if_neg (by decide)]
  · rw [key "pending" none none, if_neg (by decide)]
  · rw [key "completed" none none, if_pos (by decide)]
  · rw [key "failed" none none, if_pos (by decide)]
  · intro st em pa
    rw [key st em (some pa), if_neg (by simp)]

/-- Witness for C9 on a concrete database holding a previously failed row:
the defaulted transition into in_progress clears the stored error message
and timestamp. -/
theorem C9_update_status_overwrites_witness :
    FileRepository.find_row
        (FileRepository.update_processing_status dbC9 1 "in_progress" none none 20) 1
      = some { rowC9 with
               processing_status := "in_progress", error_message := none,
               processed_at := none } :=
  (C9_update_status_overwrites dbC9 1 rowC9 20 (by decide)).1

/-- The row-to-record conversion always raises: _row_to_media_file passes
the keyword width (among others) and the MediaFile dataclass declares no
such field. -/
theorem row_to_media_file_always_raises (row : FilesRow) :
    FileRepository.row_to_media_file row =
      .error "TypeError: MediaFile got an unexpected keyword argument width" := by
  unfold FileRepository.row_to_media_file
  rw [if_neg]
  rw [show dataclassCallOk MediaFileFields rowToMediaFileKwargs = false from by decide]
  exact Bool.false_ne_true

theorem coalesce_none {α : Type} (w : Option α) : coalesce none w = w := rfl

theorem coalesce_coalesce {α : Type} (c : Option α) (x : Option α) :
    coalesce c (coalesce c x) = coalesce c x := by cases c <;> rfl

/-- C5: update_drive_metadata is NOT fill-if-absent. The statement computes
COALESCE(argument, column), so a non-NULL argument overwrites a stored
value: on a row with creator "X" and width 800, supplying creator "Y"
replaces "X" with "Y" (while the NULL width argument leaves 800 and the
height argument fills the absent height). Absent arguments never change
anything and the operation is idempotent. -/
theorem C5_backfill_overwrites_existing :
    rowC5.creator = some "X" ∧
    ((FileRepository.update_drive_metadata dbC5 1 (some "Y") (some "d") none (some 600)).files.map
        (fun r => (r.creator, r.description, r.width, r.height)))
      = [(some "Y", some "d", some 800, some 600)] ∧
    (∀ (db : AppDB) (fid : Nat),
      FileRepository.update_drive_metadata db fid none none none none = db) ∧
    (∀ (db : AppDB) (fid : Nat) (c d : Option String) (w h : Option Int),
      FileRepository.update_drive_metadata
        (FileRepository.update_drive_metadata db fid c d w h) fid c d w h
      = FileRepository.update_drive_metadata db fid c d w h) := by
  refine ⟨by decide, by decide, ?_, ?_⟩
  · intro db fid
    simp [FileRepository.update_drive_metadata, coalesce_none]
  · intro db fid c d w h
    simp only [FileRepository.update_drive_metadata, List.map_map]
    congr 1
    apply List.map_congr_left
    intro x _
    simp only [Function.comp_apply]
    by_cases hid : x.id = fid
    · simp [hid, coalesce_coalesce]
    · simp [hid]

/-- C8: process_file on an existing file whose MIME type is not one of the
9 recognized still-image types returns failure and leaves the database
unchanged - in particular the processing_status, processed_at and
error_message of the file are exactly as before and the file is never
marked failed. (On this code the conclusion holds for every existing file:
the row conversion inside get_by_id raises before the MIME check, and the
outer except returns failure without any write.) -/
theorem C8_non_image_skip_frame (db : AppDB) (fid : Nat) (row : FilesRow)
    (download : String → Except String Unit)
    (analyze : String → Except String AnalysisDict) (now : Nat)
    (hrow : FileRepository.find_row db fid = some row)
    (hmime : VisionAnalysisService.is_image_file row.mime_type = false) :
    VisionAnalysisService.process_file db fid download analyze now = (false, db) := by
  have hget : FileRepository.get_by_id db fid =
      .error "TypeError: MediaFile got an unexpected keyword argument width" := by
    unfold FileRepository.get_by_id
    rw [hrow]
    show Except.map some (FileRepository.row_to_media_file row) =
      .error "TypeError: MediaFile got an unexpected keyword argument width"
    rw [row_to_media_file_always_raises row]
    rfl
  unfold VisionAnalysisService.process_file
  rw [hget]

/-- Witness for C8: a pending video/mp4 file is skipped with no state change. -/
theorem C8_non_image_skip_frame_witness :
    VisionAnalysisService.process_file dbC8 7 dlOk anUnused 5 = (false, dbC8) :=
  C8_non_image_skip_frame dbC8 7 rowC8 dlOk anUnused 5 (by decide) (by decide)

/-- C4: on the code as it stands the reprocessing round-trip persists
nothing at all. Both process_file runs fail inside get_by_id - the row
conversion passes keywords the MediaFile dataclass does not declare - and
return failure with the database unchanged, so after the second run
(including the reset to pending between runs) there is no metadata row and
no activity tag for the file, contradicting the claimed single row holding
the second run values. -/
theorem C4_reprocess_persists_nothing :
    VisionAnalysisService.process_file dbC4 1 dlOk anFirst 10 = (false, dbC4) ∧
    (let db1 := (VisionAnalysisService.process_file dbC4 1 dlOk anFirst 10).2
     let db1r := FileRepository.update_processing_status db1 1 "pending" none none 11
     let db2 := (VisionAnalysisService.process_file db1r 1 dlOk anSecond 12).2
     db2.metadata.filter (fun m => m.file_id == 1) = [] ∧
     db2.activity_tags.filter (fun p => p.1 == 1) = [] ∧
     db2.files.map (fun r => r.processing_status) = ["pending"]) := by
  decide

/-- C3: Config.validate accepts no credentials-skip flag. Every call the
CLI makes - validate(check_credentials=...) - raises TypeError because the
signature declares no such parameter, and the body it would run checks the
credentials file unconditionally: with a missing file it raises the
ConfigurationError even though the remaining checks would pass, and with
the file present the same configuration validates. -/
theorem C3_validate_has_no_skip_flag :
    "check_credentials" ∉ configValidateParams ∧
    (∀ (fsExists : String → Bool) (c : ConfigRec),
      Config.validate_call fsExists c loadConfigValidateKwargs =
        .error "TypeError: validate got an unexpected keyword argument check_credentials") ∧
    Config.validate_body (fun _ => false) cfgDefaults =
      .error "Google Drive credentials file not found: credentials.json" ∧
    Config.validate_body (fun _ => true) cfgDefaults = .ok () := by
  refine ⟨by decide, ?_, by decide, by decide⟩
  intro fsExists c
  unfold Config.validate_call
  rw [show (loadConfigValidateKwargs.all fun k => configValidateParams.contains k) = false
    from by decide]
  rfl
